import Mathlib

/-!
Shallow embedding of the conversation-state machine of the medical
appointment agent (`src/agents/medical_agent.py`), together with proofs
about its routing, handlers and completion predicate.

Python strings are modelled as Lean `String`; Python `Optional[str]`
fields as `Option String`; Python truthiness of an optional string
(`bool(x)` as used by `state.get(...)` checks) as `pyBool`.  The external
text-generation/extraction service is an explicit oracle argument: a call
that raises is an `Except.error`, a call that returns is an `Except.ok`.
Handlers that wrap their service call in a catch-all `try/except` are
total functions of the oracle result; the intent classifier, whose call
site has no exception handler, returns `Except` so that a raised
exception is visible as a propagated `Except.error`.
-/

/-! ### Python string semantics -/

/-- Lowercasing of one character as Python's `str.lower` does for the
alphabet occurring in this program: ASCII letters plus the accented
Spanish letters. -/
def pyCharToLower (c : Char) : Char :=
  if c = 'Á' then 'á'
  else if c = 'É' then 'é'
  else if c = 'Í' then 'í'
  else if c = 'Ó' then 'ó'
  else if c = 'Ú' then 'ú'
  else if c = 'Ñ' then 'ñ'
  else if c = 'Ü' then 'ü'
  else c.toLower

/-- Python `s.lower()`. -/
def pyLower (s : String) : String :=
  String.mk (s.toList.map pyCharToLower)

/-- `chListPfx nd hay` is true when the char list `nd` starts `hay`. -/
def chListPfx : List Char → List Char → Bool
  | [], _ => true
  | _ :: _, [] => false
  | a :: as, b :: bs => a == b && chListPfx as bs

/-- `chListSub nd hay` is true when `nd` occurs contiguously in `hay`. -/
def chListSub (nd : List Char) : List Char → Bool
  | [] => nd.isEmpty
  | b :: rest => chListPfx nd (b :: rest) || chListSub nd rest

/-- Python `needle in hay` on strings: contiguous substring test. -/
def pyIn (needle hay : String) : Bool :=
  chListSub needle.toList hay.toList

/-- Drop leading whitespace characters. -/
def dropWhileWs : List Char → List Char
  | [] => []
  | c :: cs => if c.isWhitespace then dropWhileWs cs else c :: cs

/-- Python `s.strip()`: remove leading and trailing whitespace. -/
def pyStrip (s : String) : String :=
  String.mk ((dropWhileWs (dropWhileWs s.toList).reverse).reverse)

/-- Accumulator-style worker for `pySplit`: `cur` holds the reversed
characters of the token being read. -/
def pySplitAux : List Char → List Char → List String
  | cur, [] => if cur.isEmpty then [] else [String.mk cur.reverse]
  | cur, c :: cs =>
    if c.isWhitespace then
      if cur.isEmpty then pySplitAux [] cs
      else String.mk cur.reverse :: pySplitAux [] cs
    else pySplitAux (c :: cur) cs

/-- Python `s.split()` with no argument: split on whitespace runs,
discarding empty pieces. -/
def pySplit (s : String) : List String :=
  pySplitAux [] s.toList

/-- Python truthiness of an `Optional[str]`: `None` and `""` are falsy. -/
def pyBool : Option String → Bool
  | none => false
  | some s => s != ""

/-- Python `str(x)` on an `Optional[str]`, as used in f-strings. -/
def optStr : Option String → String
  | none => "None"
  | some s => s

/-! ### Data model (`src/models/schemas.py`) -/

/-- Message origin, mirroring the `HumanMessage` / `AIMessage` /
`SystemMessage` classes used by the agent. -/
inductive Role where
  | human
  | ai
  | system
deriving DecidableEq, Repr

/-- One conversation message: a role together with its text content. -/
structure Msg where
  role : Role
  content : String
deriving DecidableEq, Repr

/-- `AgentState` from `src/models/schemas.py`: the single mutable
aggregate threaded through every stage.  Every optional field is `none`
when unset. -/
structure AgentState where
  conversation_id : Option String
  intent : Option String
  document_type : Option String
  document_number : Option String
  eps : Option String
  medical_specialty : Option String
  messages : List Msg
  conversation_stage : Option String
deriving DecidableEq, Repr

/-- `IdentificacionPaciente`: the structured record the field extractor
returns for the document-collection step. -/
structure IdentificacionPaciente where
  document_type : String
  document_number : String
deriving DecidableEq, Repr

/-- `DatosCita`: the structured record the field extractor returns for
the appointment-data step. -/
structure DatosCita where
  eps : String
  medical_specialty : String
deriving DecidableEq, Repr

/-- `state["messages"][-1].content`: content of the last message.  The
handlers only ever evaluate this on non-empty message lists. -/
def lastContent (msgs : List Msg) : String :=
  match msgs.getLast? with
  | some m => m.content
  | none => ""

/-! ### Router and completion predicate (`medical_agent.py`) -/

/-- `_route_entry`: selects the handler for an incoming turn from the
current state.  Mirrors the Python `if/elif` chain, where each
`state.get(field)` test is Python truthiness. -/
def route_entry (st : AgentState) : String :=
  if !(pyBool st.intent) then "clasificar_intencion"
  else if pyBool st.document_number && pyBool st.eps && pyBool st.medical_specialty then
    "finalizar_conversacion"
  else if pyBool st.document_number && !(pyBool st.eps) then "procesar_cita"
  else if st.intent == some "agendar_cita" && !(pyBool st.document_number) then
    "procesar_documento"
  else "clasificar_intencion"

/-- `_route_after_classification`: dispatch on the freshly set intent. -/
def route_after_classification (st : AgentState) : String :=
  if st.intent == some "saludo" then "procesar_saludo"
  else if st.intent == some "agendar_cita" then "procesar_documento"
  else "manejar_otro_tema"

/-- `is_conversation_complete`: all three substantive collection fields
are non-`None` (an empty string still counts as set here, unlike in
`route_entry`). -/
def is_conversation_complete (st : AgentState) : Bool :=
  st.document_number.isSome && st.eps.isSome && st.medical_specialty.isSome

/-! ### Intent classifier (`_clasificar_intencion`) -/

/-- Greeting vocabulary of the classifier. -/
def saludos : List String :=
  ["hola", "buenos días", "buenas tardes", "buenas noches", "hi", "hey", "saludos"]

/-- Appointment-keyword vocabulary of the classifier. -/
def cita_keywords : List String :=
  ["cita", "agendar", "reservar", "programar", "turno", "consulta"]

/-- Affirmative vocabulary used after the greeting prompt. -/
def afirmativas : List String :=
  ["si", "sí", "claro", "por favor", "me gustaría", "afirmativo", "dale"]

/-- The three labels the delegated classification call may return. -/
def intentLabels : List String :=
  ["saludo", "agendar_cita", "otro"]

/-- `_clasificar_intencion`.  The oracle `llm` is the delegated
text-generation call: `Except.ok resp` is the returned message content,
`Except.error` a raised exception.  The call site has no `try/except`,
so on the delegation path an oracle error is returned as `Except.error`
(the exception propagates to the caller). -/
def clasificar_intencion (st : AgentState) (llm : Except Unit String) :
    Except Unit AgentState :=
  let last_user_message := pyLower (lastContent st.messages)
  if (st.conversation_stage == some "greeting")
      && afirmativas.any (fun a => pyIn a last_user_message) then
    Except.ok { st with intent := some "agendar_cita" }
  else if saludos.any (fun s => pyIn s last_user_message) then
    if cita_keywords.any (fun k => pyIn k last_user_message) then
      Except.ok { st with intent := some "agendar_cita" }
    else
      Except.ok { st with intent := some "saludo" }
  else if cita_keywords.any (fun k => pyIn k last_user_message) then
    Except.ok { st with intent := some "agendar_cita" }
  else
    match llm with
    | Except.error e => Except.error e
    | Except.ok resp =>
      let llm_intent := pyLower (pyStrip resp)
      if intentLabels.contains llm_intent then
        Except.ok { st with intent := some llm_intent }
      else
        Except.ok { st with intent := some "otro" }

/-! ### Greeting and off-topic handlers -/

/-- Reply text of `_procesar_saludo`. -/
def saludoReply : String :=
  "¡Hola! ¡Qué gusto saludarte! 😊 Estoy aquí para ayudarte con el agendamiento de citas médicas. ¿Te gustaría agendar una cita médica hoy?"

/-- `_procesar_saludo`: set the greeting stage and append the fixed
welcome message. -/
def procesar_saludo (st : AgentState) : AgentState :=
  { st with
    conversation_stage := some "greeting"
    messages := st.messages ++ [Msg.mk Role.ai saludoReply] }

/-- Reply text of `_manejar_otro_tema`. -/
def otroTemaReply : String :=
  "Entiendo tu consulta, pero mi especialidad es ayudarte con el agendamiento de citas médicas. ¿Te gustaría que te ayude a agendar una cita médica?"

/-- `_manejar_otro_tema`: redirect to the scheduling purpose, appending
the fixed reply and mutating nothing else. -/
def manejar_otro_tema (st : AgentState) : AgentState :=
  { st with messages := st.messages ++ [Msg.mk Role.ai otroTemaReply] }

/-! ### Document collection handler (`_procesar_documento`) -/

/-- Keywords that indicate a wish to schedule without document data. -/
def keywords_sin_documento : List String :=
  ["agendar", "cita", "quiero", "necesito"]

/-- The affirmative list is written out a second time in
`_procesar_documento`; its elements coincide with `afirmativas`. -/
def afirmativas_simples : List String :=
  ["si", "sí", "claro", "por favor", "me gustaría", "afirmativo", "dale"]

/-- Guard of the ask-for-document branch of `_procesar_documento`: a bare
affirmative after the greeting stage, or scheduling keywords with no
digit anywhere in the message. -/
def docRequestBranch (st : AgentState) : Bool :=
  let last_user_message := lastContent st.messages
  let mensaje_lower := pyLower last_user_message
  ((st.conversation_stage == some "greeting")
      && afirmativas_simples.any (fun a => pyIn a mensaje_lower))
  || (keywords_sin_documento.any (fun k => pyIn k mensaje_lower)
      && !(last_user_message.toList.any Char.isDigit))

/-- Validation applied to an extracted `IdentificacionPaciente`: neither
field is the "unknown" sentinel (case-insensitive) and the document
number contains at least one digit. -/
def docValid (d : IdentificacionPaciente) : Bool :=
  pyLower d.document_type != "unknown"
  && pyLower d.document_number != "unknown"
  && d.document_number.toList.any Char.isDigit

/-- First-time request for the document. -/
def docRequestMsg : String :=
  "¡Perfecto! Para agendar tu cita médica, necesito que me proporciones tu tipo y número de documento. Por ejemplo: \x27Cédula 12345678\x27 o \x27CC 12345678\x27"

/-- Confirmation reply after a successful document extraction. -/
def docOkMsg (d : IdentificacionPaciente) : String :=
  "¡Perfecto! He registrado tu documento: " ++ d.document_type ++ " "
  ++ d.document_number
  ++ ". Ahora necesito que me indiques tu EPS y la especialidad médica que necesitas. Por ejemplo: \x27Sanitas, Medicina General\x27"

/-- Re-prompt reply when extraction failed validation or raised. -/
def docFailMsg : String :=
  "No pude identificar tu tipo y número de documento en el mensaje. ¿Podrías proporcionármelo de nuevo, por favor? Por ejemplo: \x27Cédula 12345678\x27 o \x27CC 12345678\x27"

/-- Reply when the document is already on file: ask for EPS and
specialty. -/
def askEpsMsg : String :=
  "Ahora necesito que me indiques tu EPS y la especialidad médica que necesitas. Por ejemplo: \x27Sanitas, Medicina General\x27"

/-- `_procesar_documento`.  The oracle `ex` is the structured-extraction
call; its `try` block has a catch-all `except`, so the handler is a
total function of the oracle result and an oracle error lands in the
same branch as a validation failure. -/
def procesar_documento (st : AgentState)
    (ex : Except Unit IdentificacionPaciente) : AgentState :=
  if !(pyBool st.document_number) then
    if docRequestBranch st then
      { st with
        conversation_stage := some "requesting_document"
        messages := st.messages ++ [Msg.mk Role.ai docRequestMsg]
        intent := some "agendar_cita" }
    else
      match ex with
      | Except.ok extracted_data =>
        if docValid extracted_data then
          { st with
            document_type := some extracted_data.document_type
            document_number := some extracted_data.document_number
            conversation_stage := some "collecting_document"
            messages := st.messages ++ [Msg.mk Role.ai (docOkMsg extracted_data)] }
        else
          { st with
            conversation_stage := some "requesting_document"
            messages := st.messages ++ [Msg.mk Role.ai docFailMsg] }
      | Except.error _ =>
        { st with
          conversation_stage := some "requesting_document"
          messages := st.messages ++ [Msg.mk Role.ai docFailMsg] }
  else
    { st with
      conversation_stage := some "requesting_appointment_data"
      messages := st.messages ++ [Msg.mk Role.ai askEpsMsg] }

/-! ### Appointment data handler (`_procesar_cita`) -/

/-- The anti-hallucination "found" test of `_procesar_cita`: the
extracted value is not the "unknown" sentinel (case-insensitive), is not
whitespace-only, and at least one whitespace-delimited token of its
lowercased form occurs in the lowercased user message. -/
def field_found (v : String) (mensaje_lower : String) : Bool :=
  pyLower v != "unknown"
  && pyStrip v != ""
  && (pySplit (pyLower v)).any (fun word => pyIn word mensaje_lower)

/-- Confirmation summary when both EPS and specialty are accepted. -/
def citaOkMsg (st : AgentState) (d : DatosCita) : String :=
  "¡Excelente! He registrado todos tus datos:\n• Documento: "
  ++ optStr st.document_type ++ " " ++ optStr st.document_number
  ++ "\n• EPS: " ++ d.eps ++ "\n• Especialidad: " ++ d.medical_specialty
  ++ "\n\nTu solicitud de cita médica ha sido registrada correctamente. Pronto te contactaremos para confirmar la disponibilidad. ¡Gracias por usar nuestro servicio!"

/-- Reply listing which of EPS / specialty is still needed. -/
def citaMissingMsg (eps_found specialty_found : Bool) : String :=
  let missing_info :=
    (if eps_found then [] else ["tu EPS"])
    ++ (if specialty_found then [] else ["la especialidad médica"])
  let request_message :=
    if missing_info.isEmpty then
      "No pude identificar correctamente tu EPS y especialidad médica."
    else
      "Necesito que me indiques " ++ String.intercalate ", y " missing_info ++ "."
  request_message
  ++ " ¿Podrías indicármelas nuevamente de forma clara? Por ejemplo: \x27Sanitas, Dermatología\x27 o \x27Sura, Medicina General\x27"

/-- Generic reply of the catch-all branch of `_procesar_cita`. -/
def citaErrMsg : String :=
  "Hubo un problema al procesar tu solicitud de EPS y especialidad. ¿Podrías indicármelas nuevamente? Por ejemplo: \x27Sanitas, Dermatología\x27 o \x27Sura, Medicina General\x27"

/-- `_procesar_cita`.  The oracle `ex` is the structured-extraction call;
its `try` block has a catch-all `except`, so the handler is total and an
oracle error degrades to the generic re-prompt without state mutation. -/
def procesar_cita (st : AgentState) (ex : Except Unit DatosCita) : AgentState :=
  let last_user_message := lastContent st.messages
  match ex with
  | Except.ok extracted_data =>
    let mensaje_lower := pyLower last_user_message
    let eps_found := field_found extracted_data.eps mensaje_lower
    let specialty_found := field_found extracted_data.medical_specialty mensaje_lower
    if eps_found && specialty_found then
      { st with
        eps := some extracted_data.eps
        medical_specialty := some extracted_data.medical_specialty
        conversation_stage := some "completed"
        messages := st.messages ++ [Msg.mk Role.ai (citaOkMsg st extracted_data)] }
    else
      { st with
        messages := st.messages
          ++ [Msg.mk Role.ai (citaMissingMsg eps_found specialty_found)] }
  | Except.error _ =>
    { st with messages := st.messages ++ [Msg.mk Role.ai citaErrMsg] }

/-! ### Finalize handler (`_finalizar_conversacion`) -/

/-- `_finalizar_conversacion`: persists and returns the state unchanged
(persistence is external to the state machine). -/
def finalizar_conversacion (st : AgentState) : AgentState :=
  st

/-! ### Spec-side definitions and auxiliary predicates -/

/-- An optional field counts as "set" in the spec's routing description:
present and not the empty string. -/
def specSet (o : Option String) : Bool :=
  o.isSome && o != some ""

/-- Entry routing as worded by the spec (section 4.7), for comparison
with `route_entry`: if `intent` is unset go to the Intent Classifier;
else if document, insurance and specialty are all set go to Finalize;
else if document is set and insurance unset go to the Appointment Data
Handler; else if the intent is to schedule and the document is unset go
to the Document Collection Handler; else fall back to the classifier. -/
def route_entry_from_spec (st : AgentState) : String :=
  if !(specSet st.intent) then "clasificar_intencion"
  else if specSet st.document_number && specSet st.eps && specSet st.medical_specialty then
    "finalizar_conversacion"
  else if specSet st.document_number && !(specSet st.eps) then "procesar_cita"
  else if st.intent == some "agendar_cita" && !(specSet st.document_number) then
    "procesar_documento"
  else "clasificar_intencion"

/-- `r`'s message list extends `st`'s by zero or exactly one appended
agent message (so no existing message is reordered, modified or
deleted). -/
def msgsAppended (st r : AgentState) : Prop :=
  r.messages = st.messages
  ∨ ∃ m, r.messages = st.messages ++ [m] ∧ m.role = Role.ai

/-- `msgsAppended` lifted to the classifier's `Except` result: a
propagated exception yields no state at all, so there is nothing to
check. -/
def msgsAppendedE (st : AgentState) (e : Except Unit AgentState) : Prop :=
  ∀ r, e = Except.ok r → msgsAppended st r

/-- The all-unset state used as a base for concrete test states. -/
def emptyState : AgentState :=
  { conversation_id := none, intent := none, document_type := none,
    document_number := none, eps := none, medical_specialty := none,
    messages := [], conversation_stage := none }

/-- Document, insurance and specialty all set, but no intent. -/
def stAllSetNoIntent : AgentState :=
  { emptyState with
    document_type := some "CC", document_number := some "12345678",
    eps := some "Sura", medical_specialty := some "General" }

/-- A materially complete state with intent set. -/
def stComplete : AgentState :=
  { stAllSetNoIntent with intent := some "agendar_cita" }

/-- Complete by `is_conversation_complete`'s non-`None` reading, but
with an empty-string insurance field. -/
def stEmptyEps : AgentState :=
  { stComplete with eps := some "" }

/-- A state whose latest message matches no keyword rule. -/
def stPlain : AgentState :=
  { emptyState with messages := [Msg.mk Role.human "xyz"] }

/-- Greeting stage, latest message a bare affirmative. -/
def stGreetingYes : AgentState :=
  { emptyState with
    conversation_stage := some "greeting"
    messages := [Msg.mk Role.human "sí"] }

/-! ### Claims -/

theorem pyBool_eq_specSet (o : Option String) : pyBool o = specSet o := by
  cases o <;> rfl

/-- C1 counterexample: a state with document, insurance and specialty
all set but intent unset is routed to the intent classifier, not to
Finalize, so routing is not independent of `intent`. -/
theorem c1_counterexample :
    pyBool stAllSetNoIntent.document_number = true
    ∧ pyBool stAllSetNoIntent.eps = true
    ∧ pyBool stAllSetNoIntent.medical_specialty = true
    ∧ stAllSetNoIntent.intent = none
    ∧ route_entry stAllSetNoIntent ≠ "finalizar_conversacion"
    ∧ route_entry stAllSetNoIntent = "clasificar_intencion" := by
  decide

/-- C1 (amended): for every state in which intent is set (truthy) and
document_number, eps and medical_specialty are all set, entry routing
selects Finalize, regardless of the value of stage. -/
theorem c1_finalize_when_all_set (st : AgentState)
    (hi : pyBool st.intent = true)
    (hd : pyBool st.document_number = true)
    (he : pyBool st.eps = true)
    (hm : pyBool st.medical_specialty = true) :
    route_entry st = "finalizar_conversacion" := by
  simp [route_entry, hi, hd, he, hm]

/-- C1 witness: the amended routing theorem applied to a concrete
complete state. -/
theorem c1_witness : route_entry stComplete = "finalizar_conversacion" :=
  c1_finalize_when_all_set stComplete (by decide) (by decide) (by decide) (by decide)

/-- C3: entry routing is exactly the precedence chain stated by the
spec — classifier when intent unset, then Finalize when all three data
fields are set, then the appointment handler when the document is set
and insurance is not, then the document handler when intent is to
schedule and the document is unset, then the classifier. -/
theorem c3_route_entry_refines_spec (st : AgentState) :
    route_entry st = route_entry_from_spec st := by
  simp only [route_entry, route_entry_from_spec, pyBool_eq_specSet]

/-- C8: the Finalize handler is the identity on conversation state —
every substantive field, the stage and the message list are unchanged,
and invoking it twice equals invoking it once. -/
theorem c8_finalizar_identity (st : AgentState) :
    finalizar_conversacion st = st
    ∧ (finalizar_conversacion st).intent = st.intent
    ∧ (finalizar_conversacion st).document_type = st.document_type
    ∧ (finalizar_conversacion st).document_number = st.document_number
    ∧ (finalizar_conversacion st).eps = st.eps
    ∧ (finalizar_conversacion st).medical_specialty = st.medical_specialty
    ∧ (finalizar_conversacion st).conversation_stage = st.conversation_stage
    ∧ (finalizar_conversacion st).messages = st.messages
    ∧ finalizar_conversacion (finalizar_conversacion st) = finalizar_conversacion st :=
  ⟨rfl, rfl, rfl, rfl, rfl, rfl, rfl, rfl, rfl⟩

/-- C10: when document_number, eps and medical_specialty are all
non-`None` with at least one equal to the empty string and intent is
present, `is_conversation_complete` is already true, yet entry routing
does not select Finalize (its truthiness checks treat "" as unset). -/
theorem c10_complete_but_not_finalized (st : AgentState)
    (hd : st.document_number.isSome = true)
    (he : st.eps.isSome = true)
    (hm : st.medical_specialty.isSome = true)
    (hi : st.intent.isSome = true)
    (hempty : st.document_number = some "" ∨ st.eps = some ""
      ∨ st.medical_specialty = some "") :
    is_conversation_complete st = true
    ∧ route_entry st ≠ "finalizar_conversacion" := by
  refine ⟨by simp [is_conversation_complete, hd, he, hm], ?_⟩
  have hb : (pyBool st.document_number && pyBool st.eps
      && pyBool st.medical_specialty) = false := by
    rcases hempty with h1 | h1 | h1 <;> simp [h1, pyBool]
  simp only [route_entry, hb]
  repeat' split <;> simp_all

/-- C10 witness: a concrete state with an empty-string insurance field,
complete by the non-`None` reading but routed away from Finalize. -/
theorem c10_witness :
    is_conversation_complete stEmptyEps = true
    ∧ route_entry stEmptyEps ≠ "finalizar_conversacion" :=
  c10_complete_but_not_finalized stEmptyEps (by decide) (by decide) (by decide)
    (by decide) (by decide)

/-- C7: when the stage is `greeting` and the lowercased latest message
contains some affirmative token as a substring, the classifier returns
intent `agendar_cita` by its first rule, for every oracle — so without
delegating to the text-generation service. -/
theorem c7_affirmative_after_greeting (st : AgentState) (llm : Except Unit String)
    (hstage : st.conversation_stage = some "greeting")
    (haff : afirmativas.any
      (fun a => pyIn a (pyLower (lastContent st.messages))) = true) :
    clasificar_intencion st llm = Except.ok { st with intent := some "agendar_cita" } := by
  simp [clasificar_intencion, hstage, haff]

/-- C7 witness: a bare "sí" after the greeting prompt is classified as
`agendar_cita` even when the delegated call would raise. -/
theorem c7_witness :
    clasificar_intencion stGreetingYes (Except.error ())
      = Except.ok { stGreetingYes with intent := some "agendar_cita" } :=
  c7_affirmative_after_greeting stGreetingYes (Except.error ()) (by decide) (by decide)

/-- C2 counterexample: on an input that reaches the delegation step, a
raised delegation call is propagated to the caller (the classifier has
no exception handler), instead of failing soft to `otro`. -/
theorem c2_counterexample :
    clasificar_intencion stPlain (Except.error ()) = Except.error () := by
  rfl

/-- C2 (amended): on inputs reaching the delegation step, a label
outside the fixed set (after strip and lowercase) falls back to `otro`,
but a raised delegation call propagates as an exception to the caller. -/
theorem c2_delegation_fallback (st : AgentState) (resp : String)
    (h1 : ((st.conversation_stage == some "greeting")
      && afirmativas.any (fun a => pyIn a (pyLower (lastContent st.messages)))) = false)
    (h2 : saludos.any (fun s => pyIn s (pyLower (lastContent st.messages))) = false)
    (h3 : cita_keywords.any (fun k => pyIn k (pyLower (lastContent st.messages))) = false)
    (hbad : intentLabels.contains (pyLower (pyStrip resp)) = false) :
    clasificar_intencion st (Except.ok resp) = Except.ok { st with intent := some "otro" }
    ∧ clasificar_intencion st (Except.error ()) = Except.error () := by
  have hbad' : pyLower (pyStrip resp) ∉ intentLabels := by
    simpa using hbad
  constructor <;> simp [clasificar_intencion, h1, h2, h3, hbad']

/-- C2 witness: the delegation fallback at a concrete keyword-free
message and an out-of-vocabulary label. -/
theorem c2_witness :
    clasificar_intencion stPlain (Except.ok "blah")
      = Except.ok { stPlain with intent := some "otro" }
    ∧ clasificar_intencion stPlain (Except.error ()) = Except.error () :=
  c2_delegation_fallback stPlain "blah" (by decide) (by decide) (by decide) (by decide)

/-- C4: a field counts as found only if it is non-empty, not the
"unknown" sentinel (case-insensitive), and shares a whitespace-delimited
token with the lowercased message; in particular an extracted insurance
value sharing no token with the message is treated as not-found and is
not stored. -/
theorem c4_anti_hallucination (st : AgentState) (d : DatosCita)
    (hno : (pySplit (pyLower d.eps)).any
      (fun w => pyIn w (pyLower (lastContent st.messages))) = false) :
    (∀ v m, field_found v m = true →
      v ≠ "" ∧ pyLower v ≠ "unknown"
      ∧ (pySplit (pyLower v)).any (fun w => pyIn w m) = true)
    ∧ field_found d.eps (pyLower (lastContent st.messages)) = false
    ∧ (procesar_cita st (Except.ok d)).eps = st.eps := by
  have hgen : ∀ v m, field_found v m = true →
      v ≠ "" ∧ pyLower v ≠ "unknown"
      ∧ (pySplit (pyLower v)).any (fun w => pyIn w m) = true := by
    intro v m hv
    simp only [field_found, Bool.and_eq_true, bne_iff_ne, ne_eq] at hv
    refine ⟨?_, hv.1.1, ?_⟩
    · rintro rfl
      exact hv.1.2 (by decide)
    · simpa using hv.2
  have hf : field_found d.eps (pyLower (lastContent st.messages)) = false := by
    simp [field_found, hno]
  refine ⟨hgen, hf, ?_⟩
  simp [procesar_cita, hf]

/-- C4 witness: an extracted insurance value with no token occurring in
the message leaves the insurance field unchanged. -/
theorem c4_witness :
    field_found "Sanitas" (pyLower (lastContent stPlain.messages)) = false
    ∧ (procesar_cita stPlain
        (Except.ok (DatosCita.mk "Sanitas" "xyz"))).eps = stPlain.eps :=
  ((c4_anti_hallucination stPlain (DatosCita.mk "Sanitas" "xyz") (by decide)).2)

/-- C5: in the document handler with no document on file and the
request branch not taken, a validation failure or a raised extraction
call both produce the same state: document fields untouched, stage set
to `requesting_document`, and exactly the re-prompt appended — no
exception escapes. -/
theorem c5_doc_failure (st : AgentState) (ex : Except Unit IdentificacionPaciente)
    (hdoc : pyBool st.document_number = false)
    (hbr : docRequestBranch st = false)
    (hfail : ex = Except.error () ∨ ∃ d, ex = Except.ok d ∧ docValid d = false) :
    procesar_documento st ex =
      { st with
        conversation_stage := some "requesting_document"
        messages := st.messages ++ [Msg.mk Role.ai docFailMsg] } := by
  rcases hfail with rfl | ⟨d, rfl, hv⟩
  · simp [procesar_documento, hdoc, hbr]
  · simp [procesar_documento, hdoc, hbr, hv]

/-- C5 witness: a raised extraction on a keyword-free message yields the
re-prompt state. -/
theorem c5_witness :
    procesar_documento stPlain (Except.error ()) =
      { stPlain with
        conversation_stage := some "requesting_document"
        messages := stPlain.messages ++ [Msg.mk Role.ai docFailMsg] } :=
  c5_doc_failure stPlain (Except.error ()) (by decide) (by decide) (Or.inl rfl)

/-- C6: in the document handler with document fields unset and a valid
extraction (neither field "unknown", number containing a digit), both
fields are stored, the stage becomes `collecting_document`, the
confirming reply is appended, and with insurance and specialty still
unset the completion predicate remains false. -/
theorem c6_doc_success (st : AgentState) (d : IdentificacionPaciente)
    (hdoc : st.document_number = none)
    (hdt : st.document_type = none)
    (hbr : docRequestBranch st = false)
    (hv : docValid d = true)
    (heps : st.eps = none)
    (hms : st.medical_specialty = none) :
    procesar_documento st (Except.ok d) =
      { st with
        document_type := some d.document_type
        document_number := some d.document_number
        conversation_stage := some "collecting_document"
        messages := st.messages ++ [Msg.mk Role.ai (docOkMsg d)] }
    ∧ is_conversation_complete (procesar_documento st (Except.ok d)) = false := by
  have h1 : pyBool st.document_number = false := by rw [hdoc]; rfl
  constructor
  · simp [procesar_documento, h1, hbr, hv]
  · simp [procesar_documento, h1, hbr, hv, is_conversation_complete, heps]

/-- C6 witness: extracting "Cédula 12345678" from a fresh state stores
the document, moves to `collecting_document`, and leaves the
conversation incomplete. -/
theorem c6_witness :
    procesar_documento stPlain (Except.ok (IdentificacionPaciente.mk "Cédula" "12345678")) =
      { stPlain with
        document_type := some "Cédula"
        document_number := some "12345678"
        conversation_stage := some "collecting_document"
        messages := stPlain.messages
          ++ [Msg.mk Role.ai (docOkMsg (IdentificacionPaciente.mk "Cédula" "12345678"))] }
    ∧ is_conversation_complete
        (procesar_documento stPlain
          (Except.ok (IdentificacionPaciente.mk "Cédula" "12345678"))) = false :=
  c6_doc_success stPlain (IdentificacionPaciente.mk "Cédula" "12345678")
    (by decide) (by decide) (by decide) (by decide) (by decide) (by decide)

/-- C9: every handler extends the message list by zero or exactly one
appended agent message, for every state and every oracle outcome; no
existing message is reordered, modified or deleted. -/
theorem c9_messages_append_only (st : AgentState) (llm : Except Unit String)
    (ex1 : Except Unit IdentificacionPaciente) (ex2 : Except Unit DatosCita) :
    msgsAppendedE st (clasificar_intencion st llm)
    ∧ msgsAppended st (procesar_saludo st)
    ∧ msgsAppended st (procesar_documento st ex1)
    ∧ msgsAppended st (procesar_cita st ex2)
    ∧ msgsAppended st (manejar_otro_tema st)
    ∧ msgsAppended st (finalizar_conversacion st) := by
  refine ⟨?_, Or.inr ⟨_, rfl, rfl⟩, ?_, ?_, Or.inr ⟨_, rfl, rfl⟩, Or.inl rfl⟩
  · intro r hr
    simp only [clasificar_intencion] at hr
    repeat' split at hr
    all_goals first
      | exact Except.noConfusion hr
      | (injection hr with h; subst h; exact Or.inl rfl)
  · unfold procesar_documento
    repeat' split
    all_goals exact Or.inr ⟨_, rfl, rfl⟩
  · simp only [procesar_cita]
    repeat' split
    all_goals exact Or.inr ⟨_, rfl, rfl⟩
